import Mathlib

/-!
Verification of `minimal-pixels` (src/main.rs), a minimal winit/pixels
scaffold: a window, a fixed-interval timer, and an RGBA frame buffer.

The pure frame-buffer routine `draw` and the no-op `update` are embedded
directly; the event-loop handler closure in `main` is embedded as a state
transition function over an explicit application state, with the outcomes
of external library calls (render, surface resize, window-position-to-pixel
mapping) supplied as oracle inputs, since those calls live in the `pixels` /
`winit` crates, not in this repository.
-/

set_option autoImplicit false

namespace MinimalPixels

/-- `PIX_SIZE: (u32, u32) = (320, 240)`, the logical size of the Pixels
instance (src/main.rs line 18). -/
def PIX_SIZE : Nat × Nat := (320, 240)

/-- Rust `usize as i16` cast: truncate to the low 16 bits and reinterpret
as a signed 16-bit value. -/
def toI16 (n : Nat) : Int :=
  if n % 65536 < 32768 then (n % 65536 : Int) else (n % 65536 : Int) - 65536

/-- The rectangle test of `draw` (src/main.rs lines 138-141): with
`x = (i % 320) as i16` and `y = (i / 320) as i16`, the guard
`x > 50 && x < 100 && y > 50 && y < 100`. -/
def drawCond (i : Nat) : Bool :=
  decide (50 < toI16 (i % PIX_SIZE.1)) && decide (toI16 (i % PIX_SIZE.1) < 100) &&
  decide (50 < toI16 (i / PIX_SIZE.1)) && decide (toI16 (i / PIX_SIZE.1) < 100)

/-- The literal written by `pixel.copy_from_slice(&[0xff, 0xff, 0x50, 0xff])`
(src/main.rs line 142). -/
def rectColor : List Nat := [0xff, 0xff, 0x50, 0xff]

/-- The loop body of `draw`: `frame.chunks_exact_mut(4).enumerate()` starting
at chunk index `i`; each complete 4-byte chunk whose index passes `drawCond`
is overwritten with `rectColor`; a trailing remainder of fewer than 4 bytes
is left untouched (src/main.rs lines 136-145). -/
def drawGo (i : Nat) : List Nat → List Nat
  | a :: b :: c :: d :: rest =>
      if drawCond i then 0xff :: 0xff :: 0x50 :: 0xff :: drawGo (i + 1) rest
      else a :: b :: c :: d :: drawGo (i + 1) rest
  | rest => rest

/-- `fn draw(frame: &mut [u8])` (src/main.rs lines 136-145), embedded as a
function from buffer contents to buffer contents. -/
def draw (frame : List Nat) : List Nat := drawGo 0 frame

/-- `fn update()` (src/main.rs lines 147-149) has no parameters and an empty
body; its state-passing embedding is the identity on the application state.
The state itself is introduced below. -/
theorem drawGo_length : ∀ (i : Nat) (l : List Nat), (drawGo i l).length = l.length
  | i, a :: b :: c :: d :: rest => by
      simp only [drawGo]
      split <;> simp [drawGo_length (i + 1) rest]
  | _, [] => rfl
  | _, [_] => rfl
  | _, [_, _] => rfl
  | _, [_, _, _] => rfl

theorem drop_four (m : Nat) (a b c d : Nat) (t : List Nat) :
    List.drop (4 * (m + 1)) (a :: b :: c :: d :: t) = List.drop (4 * m) t := by
  have h : 4 * (m + 1) = (4 * m) + 1 + 1 + 1 + 1 := by ring
  rw [h]
  simp [List.drop_succ_cons]

/-- Chunk-level characterization of `drawGo`: any complete 4-byte chunk of the
output is `rectColor` when its index passes `drawCond`, and is the input's
chunk otherwise. -/
theorem drawGo_chunk : ∀ (i j : Nat) (l : List Nat), 4 * j + 4 ≤ l.length →
    ((drawGo i l).drop (4 * j)).take 4 =
      if drawCond (i + j) then rectColor else ((l.drop (4 * j)).take 4)
  | i, 0, a :: b :: c :: d :: rest, _ => by
      simp only [drawGo, Nat.mul_zero, List.drop_zero, Nat.add_zero]
      split <;> simp [rectColor]
  | i, j + 1, a :: b :: c :: d :: rest, h => by
      have hrest : 4 * j + 4 ≤ rest.length := by
        simp only [List.length_cons] at h; omega
      have ih := drawGo_chunk (i + 1) j rest hrest
      have hadd : i + 1 + j = i + (j + 1) := by omega
      simp only [drawGo]
      split <;>
        · rw [drop_four, drop_four, ih, hadd]
  | _, j, [], h => by simp only [List.length_nil] at h; omega
  | _, j, [_], h => by simp only [List.length_cons, List.length_nil] at h; omega
  | _, j, [_, _], h => by simp only [List.length_cons, List.length_nil] at h; omega
  | _, j, [_, _, _], h => by simp only [List.length_cons, List.length_nil] at h; omega

/-- The trailing remainder (positions at or past the last complete 4-byte
chunk) is untouched by `drawGo`. -/
theorem drawGo_remainder : ∀ (i : Nat) (l : List Nat),
    (drawGo i l).drop (4 * (l.length / 4)) = l.drop (4 * (l.length / 4))
  | i, a :: b :: c :: d :: rest => by
      have hdiv : (a :: b :: c :: d :: rest).length / 4 = rest.length / 4 + 1 := by
        simp only [List.length_cons]; omega
      simp only [drawGo]
      split <;>
        · rw [hdiv, drop_four, drop_four, drawGo_remainder (i + 1) rest]
  | _, [] => rfl
  | _, [_] => rfl
  | _, [_, _] => rfl
  | _, [_, _, _] => rfl

/-- For an in-bounds pixel `(x, y)` of the 320-wide buffer, `drawCond` at chunk
index `y * 320 + x` is exactly the mathematical rectangle test: the `as i16`
casts do not wrap since `x < 320` and `y < 32768`. -/
theorem drawCond_iff (x y : Nat) (hx : x < 320) (hy : y < 32768) :
    drawCond (y * 320 + x) = true ↔ (50 < x ∧ x < 100 ∧ 50 < y ∧ y < 100) := by
  have h1 : (y * 320 + x) % PIX_SIZE.1 = x := by
    simp only [PIX_SIZE]; omega
  have h2 : (y * 320 + x) / PIX_SIZE.1 = y := by
    simp only [PIX_SIZE]; omega
  have hxm : x % 65536 = x := by omega
  have hym : y % 65536 = y := by omega
  simp only [drawCond, h1, h2, toI16, hxm, hym]
  rw [if_pos (by omega), if_pos (by omega)]
  simp only [Bool.and_eq_true, decide_eq_true_eq]
  omega

/-- `drawGo` is idempotent chunk by chunk: a chunk it painted is repainted with
the same literal, and a chunk it skipped is skipped again. -/
theorem drawGo_idem : ∀ (i : Nat) (l : List Nat), drawGo i (drawGo i l) = drawGo i l
  | i, a :: b :: c :: d :: rest => by
      simp only [drawGo]
      split
      next h => simp [drawGo, h, drawGo_idem (i + 1) rest]
      next h => simp [drawGo, h, drawGo_idem (i + 1) rest]
  | _, [] => rfl
  | _, [_] => rfl
  | _, [_, _] => rfl
  | _, [_, _, _] => rfl

/-- Claim C1: for every RGBA frame buffer of the fixed dimensions
(PIX_SIZE = 320x240, i.e. 320*240*4 bytes) and every pixel index (x, y) with
50 < x < 100 and 50 < y < 100, after `draw` runs on the buffer, that pixel's
four bytes equal the literal RGBA value (0xff, 0xff, 0x50, 0xff). -/
theorem draw_paints_rect (frame : List Nat) (x y : Nat)
    (hlen : frame.length = 320 * 240 * 4)
    (hx1 : 50 < x) (hx2 : x < 100) (hy1 : 50 < y) (hy2 : y < 100) :
    ((draw frame).drop (4 * (y * 320 + x))).take 4 = [0xff, 0xff, 0x50, 0xff] := by
  have hle : 4 * (y * 320 + x) + 4 ≤ frame.length := by rw [hlen]; omega
  have hc := drawGo_chunk 0 (y * 320 + x) frame hle
  rw [Nat.zero_add] at hc
  rw [draw, hc, if_pos ((drawCond_iff x y (by omega) (by omega)).mpr ⟨hx1, hx2, hy1, hy2⟩)]
  rfl

/-- Witness for C1 at a concrete buffer (all zeroes) and pixel (51, 51). -/
theorem draw_paints_rect_witness :
    (List.replicate (320 * 240 * 4) (0 : Nat)).length = 320 * 240 * 4 ∧
    ((draw (List.replicate (320 * 240 * 4) (0 : Nat))).drop (4 * (51 * 320 + 51))).take 4 =
      [0xff, 0xff, 0x50, 0xff] :=
  ⟨List.length_replicate _ _,
   draw_paints_rect _ 51 51 (List.length_replicate _ _)
     (by decide) (by decide) (by decide) (by decide)⟩

/-- Claim C2: for every RGBA frame buffer of the fixed dimensions and every
in-bounds pixel index (x, y) not satisfying both 50 < x < 100 and
50 < y < 100, `draw` leaves that pixel's four bytes exactly as they were: the
buffer is not cleared before painting. -/
theorem draw_preserves_outside (frame : List Nat) (x y : Nat)
    (hlen : frame.length = 320 * 240 * 4) (hx : x < 320) (hy : y < 240)
    (hout : ¬(50 < x ∧ x < 100 ∧ 50 < y ∧ y < 100)) :
    ((draw frame).drop (4 * (y * 320 + x))).take 4 =
      (frame.drop (4 * (y * 320 + x))).take 4 := by
  have hle : 4 * (y * 320 + x) + 4 ≤ frame.length := by rw [hlen]; omega
  have hc := drawGo_chunk 0 (y * 320 + x) frame hle
  rw [Nat.zero_add] at hc
  rw [draw, hc, if_neg (fun h => hout ((drawCond_iff x y hx (by omega)).mp h))]

/-- Witness for C2 at a concrete buffer (all zeroes) and pixel (0, 0). -/
theorem draw_preserves_outside_witness :
    (List.replicate (320 * 240 * 4) (0 : Nat)).length = 320 * 240 * 4 ∧
    ((draw (List.replicate (320 * 240 * 4) (0 : Nat))).drop (4 * (0 * 320 + 0))).take 4 =
      ((List.replicate (320 * 240 * 4) (0 : Nat)).drop (4 * (0 * 320 + 0))).take 4 :=
  ⟨List.length_replicate _ _,
   draw_preserves_outside _ 0 0 (List.length_replicate _ _)
     (by decide) (by decide) (by decide)⟩

/-- Claim C9: `draw` is idempotent — applying it twice produces exactly the
same buffer contents as applying it once (it writes only index-determined
constants and reads no byte values). -/
theorem draw_idempotent (frame : List Nat) : draw (draw frame) = draw frame :=
  drawGo_idem 0 frame

/-- Claim C10: `draw` is total and in-bounds for every input buffer length,
not only the expected 320*240*4 bytes: the output has the input's length, each
complete 4-byte chunk is overwritten with the rectangle color exactly when the
code's computed (x, y) — with its `as i16` casts — passes the strict 50..100
rectangle test and is untouched otherwise, and a trailing remainder of fewer
than 4 bytes is left unchanged. -/
theorem draw_any_length_safe (frame : List Nat) (j : Nat) :
    (draw frame).length = frame.length ∧
    (4 * j + 4 ≤ frame.length →
      ((draw frame).drop (4 * j)).take 4 =
        if drawCond j then rectColor else ((frame.drop (4 * j)).take 4)) ∧
    (draw frame).drop (4 * (frame.length / 4)) =
      frame.drop (4 * (frame.length / 4)) := by
  refine ⟨drawGo_length 0 frame, ?_, drawGo_remainder 0 frame⟩
  intro h
  have hc := drawGo_chunk 0 j frame h
  rwa [Nat.zero_add] at hc

/-- Witness for C10 at a concrete 7-byte buffer (one complete chunk plus a
3-byte remainder) and chunk index 0. -/
theorem draw_any_length_safe_witness :
    4 * 0 + 4 ≤ ([1, 2, 3, 4, 5, 6, 7] : List Nat).length ∧
    ((draw [1, 2, 3, 4, 5, 6, 7]).drop (4 * 0)).take 4 =
      (if drawCond 0 then rectColor
       else ((([1, 2, 3, 4, 5, 6, 7] : List Nat).drop (4 * 0)).take 4)) :=
  ⟨by decide, (draw_any_length_safe [1, 2, 3, 4, 5, 6, 7] 0).2.1 (by decide)⟩

/-- The mutable state owned by `main`'s event-handler closure: the tracked
mouse position `mouse_pos` (src/main.rs line 25) and the Pixels frame buffer
mutated through `pixels.frame_mut()` (line 65). Mouse coordinates are stored
and echoed but never computed with in this repository, so they are embedded
as integers. -/
structure AppState where
  mousePos : Int × Int
  frame : List Nat
deriving DecidableEq

/-- The initial closure state: `mouse_pos = (-1, -1)` (src/main.rs line 25),
frame buffer owned by the freshly built Pixels instance. -/
def initState (frame : List Nat) : AppState := ⟨(-1, -1), frame⟩

/-- The events dispatched by the `match` in `main` (src/main.rs lines 51-130),
with the boolean results of external library calls carried as oracles:
`renderOk` for `pixels.render()`, `resizeOk` for `pixels.resize_surface`, and
`mapResult` for `pixels.window_pos_to_pixel`. Each window event carries
whether its `window_id` equals this window's id. Every unmatched event shape
is `other`. -/
inductive Ev where
  | closeRequested (idMatches : Bool)
  | redrawRequested (idMatches : Bool) (renderOk : Bool)
  | newEventsInit
  | resumeTimeReached
  | cursorMoved (idMatches : Bool) (px py : Int)
  | mouseLeftPressed (idMatches : Bool) (mapResult : Option (Nat × Nat))
  | keyboardInput (idMatches : Bool) (pressed : Bool) (key : String) (rep : Bool)
  | resized (idMatches : Bool) (w h : Nat) (resizeOk : Bool)
  | other
deriving DecidableEq

/-- The observable side effects the handler performs, in program order. -/
inductive Act where
  | println (s : String)
  | drawFrame
  | render
  | callUpdate
  | requestRedraw
  | setTimer (deadline : Nat)
deriving DecidableEq

/-- How the handler leaves the process: continue the loop, request event-loop
exit (`target.exit()`), or abort via a panicking `unwrap`/`expect`. -/
inductive Outcome where
  | normal
  | exit
  | panicked
deriving DecidableEq

structure HandleResult where
  state : AppState
  acts : List Act
  outcome : Outcome
deriving DecidableEq

/-- `timer_length = Duration::from_millis(15)` (src/main.rs line 22), in
milliseconds. -/
def timerLength : Nat := 15

/-- `fn update()` (src/main.rs lines 147-149): no parameters, empty body; its
state-passing embedding is the identity on the application state. -/
def update (s : AppState) : AppState := s

/-- The event-handler closure passed to `event_loop.run` (src/main.rs lines
50-131), embedded as one step: given the current instant `now` (milliseconds),
the closure state, and the event, it yields the new state, the side effects in
order, and the process outcome. -/
def handleEvent (now : Nat) (s : AppState) (e : Ev) : HandleResult :=
  match e with
  | .closeRequested true => ⟨s, [], .exit⟩
  | .closeRequested false => ⟨s, [], .normal⟩
  | .redrawRequested true renderOk =>
      ⟨{ s with frame := draw s.frame }, [.drawFrame, .render],
        if renderOk then .normal else .panicked⟩
  | .redrawRequested false _ => ⟨s, [], .normal⟩
  | .newEventsInit => ⟨s, [.setTimer (now + timerLength)], .normal⟩
  | .resumeTimeReached =>
      ⟨update s, [.callUpdate, .requestRedraw, .setTimer (now + timerLength)], .normal⟩
  | .cursorMoved true px py => ⟨{ s with mousePos := (px, py) }, [], .normal⟩
  | .cursorMoved false _ _ => ⟨s, [], .normal⟩
  | .mouseLeftPressed true mapResult =>
      ⟨s,
        [.println "Mouse clicked:",
         .println ("\tPhysical: " ++ toString s.mousePos.1 ++ ", " ++ toString s.mousePos.2)] ++
        (match mapResult with
         | some (px, py) => [.println ("\tPixels: " ++ toString px ++ ", " ++ toString py)]
         | none => [.println "\tNot within Pixels space!"]),
        .normal⟩
  | .mouseLeftPressed false _ => ⟨s, [], .normal⟩
  | .keyboardInput true pressed key rep =>
      ⟨s,
        [.println ((if pressed then "Pressed" else "Released") ++ " " ++ key ++
          " (" ++ (if rep then "" else "not ") ++ "repeat)")],
        .normal⟩
  | .keyboardInput false _ _ _ => ⟨s, [], .normal⟩
  | .resized true w h resizeOk =>
      ⟨s, [.println ("Resized to " ++ toString w ++ ", " ++ toString h)],
        if resizeOk then .normal else .panicked⟩
  | .resized false _ _ _ => ⟨s, [], .normal⟩
  | .other => ⟨s, [], .normal⟩

/-- How `main` leaves startup (src/main.rs lines 28-48): each fallible step is
driven by an oracle boolean. Event-loop creation and Pixels building use
`.expect(...)` (panic); window building uses `?`, which returns the error from
`main` and ends the process with a failure exit. -/
inductive StartupResult where
  | panicked (msg : String)
  | errReturn
  | running
deriving DecidableEq

/-- The startup sequence of `main` before `event_loop.run` (src/main.rs lines
28-48): `EventLoop::new().expect("Failed to create event loop!")`, then
`WindowBuilder...build(&event_loop)?`, then
`PixelsBuilder...build().expect("Failed to build pixels!")`. -/
def startup (elOk winOk pixOk : Bool) : StartupResult :=
  if !elOk then .panicked "Failed to create event loop!"
  else if !winOk then .errReturn
  else if !pixOk then .panicked "Failed to build pixels!"
  else .running

/-- Claim C3, counterexample: it is false that no runtime failure aborts the
process once the event loop runs — a failed `pixels.render()` on a redraw of
this window hits `.unwrap()` (src/main.rs line 66) and panics. -/
theorem runtime_abort_counterexample :
    ¬ (∀ (now : Nat) (s : AppState) (e : Ev),
        (handleEvent now s e).outcome ≠ Outcome.panicked) :=
  fun h => h 0 (initState []) (Ev.redrawRequested true false) rfl

/-- Claim C3, amended: after startup, a runtime failure aborts the process in
exactly two cases — a failed render on a redraw of this window (line 66's
`unwrap`) and a failed surface resize on a resize of this window (line 125's
`expect`); every other runtime failure is swallowed, with a failed
coordinate-mapping on click degrading to the printed "Not within Pixels
space!" message with a normal outcome. -/
theorem runtime_failure_policy :
    (∀ (now : Nat) (s : AppState) (e : Ev),
        (handleEvent now s e).outcome = Outcome.panicked ↔
          (e = Ev.redrawRequested true false ∨
            ∃ w h, e = Ev.resized true w h false)) ∧
    (∀ (now : Nat) (s : AppState),
        (handleEvent now s (Ev.mouseLeftPressed true none)).outcome = Outcome.normal ∧
        Act.println "\tNot within Pixels space!" ∈
          (handleEvent now s (Ev.mouseLeftPressed true none)).acts) := by
  constructor
  · intro now s e
    cases e with
    | closeRequested b => cases b <;> simp [handleEvent]
    | redrawRequested m r => cases m <;> cases r <;> simp [handleEvent]
    | newEventsInit => simp [handleEvent]
    | resumeTimeReached => simp [handleEvent]
    | cursorMoved m px py => cases m <;> simp [handleEvent]
    | mouseLeftPressed m mr => cases m <;> simp [handleEvent]
    | keyboardInput m pr k rep => cases m <;> simp [handleEvent]
    | resized m w h r => cases m <;> cases r <;> simp [handleEvent]
    | other => simp [handleEvent]
  · intro now s
    exact ⟨rfl, by simp [handleEvent]⟩

/-- Claim C4: a left click whose stored pointer position maps outside the
render surface (the `window_pos_to_pixel` call returns `Err`) prints the
"Not within Pixels space!" message instead of a numeric pixel pair, leaves the
state unchanged, and exits normally (src/main.rs lines 97-107). -/
theorem click_outside_surface (now : Nat) (s : AppState) :
    handleEvent now s (Ev.mouseLeftPressed true none) =
      ⟨s,
       [Act.println "Mouse clicked:",
        Act.println ("\tPhysical: " ++ toString s.mousePos.1 ++ ", " ++
          toString s.mousePos.2),
        Act.println "\tNot within Pixels space!"],
       Outcome.normal⟩ := rfl

/-- Claim C5: the update routine performs no observable mutation — it is the
identity on the whole application state, in particular on the frame buffer
and the mouse position (src/main.rs lines 147-149). -/
theorem update_identity (s : AppState) :
    (update s).frame = s.frame ∧ (update s).mousePos = s.mousePos ∧ update s = s :=
  ⟨rfl, rfl, rfl⟩

/-- Claim C6: on every timer tick (`StartCause::ResumeTimeReached`), the
handler performs exactly, in order: call `update`, request a window redraw,
rearm the timer to fire 15 ms after the current instant (src/main.rs lines
76-80) — update precedes the redraw request, and the timer is rearmed
relative to now rather than being a true periodic timer. -/
theorem tick_sequence (now : Nat) (s : AppState) :
    handleEvent now s Ev.resumeTimeReached =
      ⟨s, [Act.callUpdate, Act.requestRedraw, Act.setTimer (now + 15)],
        Outcome.normal⟩ := rfl

/-- Claim C7: each of the three startup failures — event-loop creation,
window build, render-surface build — ends the process on an unrecoverable
path (a panicking `expect` for the first and third, an error return from
`main` via `?` for the second), and startup reaches the event loop only when
all three succeed: nothing is recovered or retried. -/
theorem startup_failures_fatal :
    (∀ (w p : Bool),
        startup false w p = StartupResult.panicked "Failed to create event loop!") ∧
    (∀ (p : Bool), startup true false p = StartupResult.errReturn) ∧
    startup true true false = StartupResult.panicked "Failed to build pixels!" ∧
    (∀ (el w p : Bool),
        startup el w p = StartupResult.running ↔ (el = true ∧ w = true ∧ p = true)) := by
  refine ⟨fun w p => rfl, fun p => rfl, rfl, ?_⟩
  intro el w p
  cases el <;> cases w <;> cases p <;> simp [startup]

/-- Claim C8: the handler requests event-loop exit exactly on a
`CloseRequested` event carrying this window's id (src/main.rs lines 53-56);
no other event produces the exit outcome. -/
theorem exit_iff_close (now : Nat) (s : AppState) (e : Ev) :
    (handleEvent now s e).outcome = Outcome.exit ↔ e = Ev.closeRequested true := by
  cases e with
  | closeRequested b => cases b <;> simp [handleEvent]
  | redrawRequested m r => cases m <;> cases r <;> simp [handleEvent]
  | newEventsInit => simp [handleEvent]
  | resumeTimeReached => simp [handleEvent]
  | cursorMoved m px py => cases m <;> simp [handleEvent]
  | mouseLeftPressed m mr => cases m <;> simp [handleEvent]
  | keyboardInput m pr k rep => cases m <;> simp [handleEvent]
  | resized m w h r => cases m <;> cases r <;> simp [handleEvent]
  | other => simp [handleEvent]

end MinimalPixels
